import Mathlib

/-!
# Verification of the network-importer entity model and backend configuration

Shallow embedding of `src/network_importer/models.py` and
`src/network_importer/config.py`.

Conventions of the embedding:
* Python keyword arguments that may be absent are modelled as `Option` parameters
  (`none` = the key is missing from `kwargs`). A Python `None` value passed
  explicitly behaves, at every check the code performs (`not kwargs[k]`,
  pydantic validation), like the absent/falsy case, so a single `Option` layer
  is faithful for the claims considered here.
* A pydantic model class becomes a structure plus an `init` function returning
  `Except ModelErr _`. Pydantic rejects a missing required field
  (`ValidationError`, constructor `validationError`); a provided empty string is
  a valid `str` and is accepted. `ValueError` raised by `Cable.__init__`'s
  identity checks is `invalidIdentity`; the `ValueError` of `get_device_intf`
  is `invalidSide`; the `KeyError` from the identifier-copy dict comprehension
  when an interface key is absent is `keyError`.
* Python's `sorted` on lists of strings is `List.insertionSort pyLE`, where
  `pyLE` is code-point lexicographic comparison (Python's string order);
  `str.lower` is `pyLower`, ASCII lowercasing (all strings the source compares
  against are ASCII, where the two agree).
-/

namespace NetworkImporter

/-- Error kinds observable from the embedded code: `validationError` is
pydantic's missing-required-field error, `invalidIdentity` and `invalidSide`
are the `ValueError`s raised in `models.py`, `keyError` is Python's `KeyError`. -/
inductive ModelErr where
  | validationError
  | invalidIdentity
  | invalidSide
  | keyError
deriving DecidableEq, Repr

/-- Code-point lexicographic `≤` on char lists: Python's string comparison. -/
def charsLe : List Char → List Char → Bool
  | [], _ => true
  | _ :: _, [] => false
  | a :: as, b :: bs => if a < b then true else if b < a then false else charsLe as bs

/-- Python's `<=` on strings (lexicographic by Unicode code point). -/
def pyLE (a b : String) : Prop := charsLe a.data b.data = true

instance : DecidableRel pyLE := fun a b => instDecidableEqBool (charsLe a.data b.data) true

/-- Python's `sorted` on a list of strings. -/
def pySorted (l : List String) : List String :=
  List.insertionSort pyLE l

/-- Python's `str.lower`, restricted to its ASCII behaviour (all inputs the
source compares against are ASCII). -/
def pyLower (s : String) : String := ⟨s.data.map Char.toLower⟩

/-- `Site` model of `models.py` (lines 20-32): identity `("name",)`,
children `vlan`/`prefix`; `prefixes` and `vlans` default to empty lists. -/
structure Site where
  name : String
  prefixes : List String := []
  vlans : List String := []
deriving DecidableEq, Repr

/-- Pydantic construction of `Site`: `name` is the only required field. -/
def Site.init (name : Option String) : Except ModelErr Site :=
  match name with
  | none => .error .validationError
  | some n => .ok { name := n }

/-- `Device` model of `models.py` (lines 35-52): identity `("name",)`;
every other field is optional with default `None`/empty list. -/
structure Device where
  name : String
  site_name : Option String := none
  interfaces : List String := []
  platform : Option String := none
  model : Option String := none
  role : Option String := none
  vendor : Option String := none
deriving DecidableEq, Repr

/-- Pydantic construction of `Device`: `name` is the only required field. -/
def Device.init (name : Option String) : Except ModelErr Device :=
  match name with
  | none => .error .validationError
  | some n => .ok { name := n }

/-- The class-level declarations of `Device` in `models.py`:
`_modelname`, `_identifiers`, `_attributes` and `_children` verbatim. -/
def Device.modelname : String := "device"

/-- `Device._identifiers = ("name",)` (models.py line 42). -/
def Device.identifiers : List String := ["name"]

/-- `Device._attributes = ("site_name",)` (models.py line 43). -/
def Device.attributes : List String := ["site_name"]

/-- `Device._children = {"interface": "interfaces"}` (models.py line 44). -/
def Device.children : List (String × String) := [("interface", "interfaces")]

/-- `Interface` model of `models.py` (lines 55-95): identity
`("device_name", "name")`; all further fields optional. -/
structure Interface where
  name : String
  device_name : String
  description : Option String := none
  mtu : Option Int := none
  speed : Option Int := none
  mode : Option String := none
  switchport_mode : Option String := some "NONE"
  active : Option Bool := none
  is_virtual : Option Bool := none
  is_lag : Option Bool := none
  is_lag_member : Option Bool := none
  parent : Option String := none
  lag_members : List String := []
  allowed_vlans : List String := []
  access_vlan : Option String := none
  ips : List String := []
deriving DecidableEq, Repr

/-- Pydantic construction of `Interface`: `name` and `device_name` required. -/
def Interface.init (name device_name : Option String) : Except ModelErr Interface :=
  match name, device_name with
  | some n, some d => .ok { name := n, device_name := d }
  | _, _ => .error .validationError

/-- `IPAddress` model of `models.py` (lines 98-109): identity
`("device_name", "interface_name", "address")`, all three required. -/
structure IPAddress where
  device_name : String
  interface_name : String
  address : String
deriving DecidableEq, Repr

/-- Pydantic construction of `IPAddress`: all three fields required. -/
def IPAddress.init (device_name interface_name address : Option String) :
    Except ModelErr IPAddress :=
  match device_name, interface_name, address with
  | some d, some i, some a => .ok { device_name := d, interface_name := i, address := a }
  | _, _, _ => .error .validationError

/-- The `Prefix` model of `models.py` (lines 112-124): identity
`("site_name", "prefix")`, attribute `("vlan",)`. The source class is named
`Prefix` and its required field `prefix`; they are renamed `PrefixModel` /
`prefix_value` here, with unchanged meaning. Note `site_name` — an identity
component — is `Optional` with default `None` in the source. -/
structure PrefixModel where
  prefix_value : String
  site_name : Option String := none
  vlan : Option String := none
deriving DecidableEq, Repr

/-- Pydantic construction of `Prefix`: only `prefix` is required;
`site_name`, though part of the identity tuple, may be absent. -/
def PrefixModel.init (site_name prefix_value : Option String) :
    Except ModelErr PrefixModel :=
  match prefix_value with
  | none => .error .validationError
  | some p => .ok { prefix_value := p, site_name := site_name }

/-- `Vlan` model of `models.py` (lines 190-214): identity `("site_name", "vid")`,
attributes `("name", "associated_devices")`. -/
structure Vlan where
  vid : Int
  site_name : String
  name : Option String := none
  associated_devices : List String := []
deriving DecidableEq, Repr

/-- Pydantic construction of `Vlan`: `vid` and `site_name` required. -/
def Vlan.init (vid : Option Int) (site_name : Option String) : Except ModelErr Vlan :=
  match vid, site_name with
  | some v, some s => .ok { vid := v, site_name := s }
  | _, _ => .error .validationError

/-- `Vlan.add_device` (models.py lines 206-214): if the name is not already
present, append it and replace the list with `sorted(...)`. -/
def Vlan.add_device (v : Vlan) (device_name : String) : Vlan :=
  if device_name ∈ v.associated_devices then v
  else { v with associated_devices := pySorted (v.associated_devices ++ [device_name]) }

/-- Folding `Vlan.add_device` over a sequence of device names, i.e. the effect
of population code calling `add_device` once per discovered device. -/
def Vlan.add_devices (v : Vlan) (names : List String) : Vlan :=
  names.foldl Vlan.add_device v

/-- `Cable` model of `models.py` (lines 127-145): identity is the 4-tuple
`(device_a_name, interface_a_name, device_z_name, interface_z_name)`. -/
structure Cable where
  device_a_name : String
  interface_a_name : String
  device_z_name : String
  interface_z_name : String
  source : Option String := none
  is_valid : Bool := true
  error : Option String := none
deriving DecidableEq, Repr

/-- `Cable.__init__` (models.py lines 147-167), with `kwargs` entries for the
four identifier keys passed as `Option` arguments. The two device-name checks
(`ValueError`, i.e. `invalidIdentity`) run first; then the identifier dict is
copied (a missing interface key raises `KeyError` there); the endpoint tuples
are swapped when `sorted(devices) != devices`. -/
def Cable.init (device_a_name interface_a_name device_z_name interface_z_name :
    Option String) : Except ModelErr Cable :=
  match device_a_name, device_z_name with
  | none, _ => .error .invalidIdentity
  | _, none => .error .invalidIdentity
  | some da, some dz =>
    if da = "" ∨ dz = "" then .error .invalidIdentity
    else
      match interface_a_name, interface_z_name with
      | some ia, some iz =>
        if pySorted [da, dz] ≠ [da, dz] then
          .ok { device_a_name := dz, interface_a_name := iz,
                device_z_name := da, interface_z_name := ia }
        else
          .ok { device_a_name := da, interface_a_name := ia,
                device_z_name := dz, interface_z_name := iz }
      | _, _ => .error .keyError

/-- The identity tuple of a constructed `Cable`, in declaration order. -/
def Cable.identity (c : Cable) : String × String × String × String :=
  (c.device_a_name, c.interface_a_name, c.device_z_name, c.interface_z_name)

/-- `Cable.get_device_intf` (models.py lines 169-187): the side string is
lowercased before comparison; an unrecognized side raises `ValueError`
(`invalidSide`). -/
def Cable.get_device_intf (c : Cable) (side : String) : Except ModelErr (String × String) :=
  if pyLower side = "a" then .ok (c.device_a_name, c.interface_a_name)
  else if pyLower side = "z" then .ok (c.device_z_name, c.interface_z_name)
  else .error .invalidSide

/-- The list-level effect of one `add_device` call. -/
def listAdd (l : List String) (d : String) : List String :=
  if d ∈ l then l else pySorted (l ++ [d])

/-! ## Configuration (`config.py`) -/

/-- `BatfishSettings` (config.py lines 41-48) with its field defaults. -/
structure BatfishSettings where
  address : String := "localhost"
  network_name : String := "network-importer"
  snapshot_name : String := "latest"
  port_v1 : Nat := 9997
  port_v2 : Nat := 9996
  use_ssl : Bool := false
  api_key : Option String := none
deriving DecidableEq, Repr

/-- `NetworkSettings` (config.py lines 51-57); the optional `dict` fields are
modelled as optional association lists. -/
structure NetworkSettings where
  login : Option String := none
  password : Option String := none
  enable : Bool := true
  netmiko_extras : Option (List (String × String)) := none
  napalm_extras : Option (List (String × String)) := none
  fqdns : List String := []
deriving DecidableEq, Repr

/-- `LogsSettings` (config.py lines 60-66); the `Literal` level is a string. -/
structure LogsSettings where
  level : String := "info"
  performance_log : Bool := false
  performance_log_directory : String := "performance_logs"
deriving DecidableEq, Repr

/-- `MainSettings` (config.py lines 74-95); `Literal`/`Union` fields are
strings, `backend : Optional[Literal[...]] = None` is an optional string. -/
structure MainSettings where
  import_ips : Bool := true
  import_prefixes : Bool := false
  import_cabling : String := "lldp"
  excluded_platforms_cabling : List String := []
  import_vlans : String := "config"
  import_intf_status : Bool := false
  nbr_workers : Nat := 25
  configs_directory : String := "configs"
  backend : Option String := none
  generate_hostvars : Bool := false
  hostvars_directory : String := "host_vars"
deriving DecidableEq, Repr

/-- `AdaptersSettings` (config.py lines 98-105). -/
structure AdaptersSettings where
  network_class : String :=
    "network_importer.adapters.network_importer.adapter.NetworkImporterAdapter"
  network_settings : Option (List (String × String)) := none
  sot_class : Option String := none
  sot_settings : Option (List (String × String)) := none
deriving DecidableEq, Repr

/-- `DEFAULT_DRIVERS_MAPPING` (config.py lines 18-25). -/
def DEFAULT_DRIVERS_MAPPING : List (String × String) :=
  [("default", "network_importer.drivers.default"),
   ("cisco_nxos", "network_importer.drivers.cisco_default"),
   ("cisco_ios", "network_importer.drivers.cisco_default"),
   ("cisco_xr", "network_importer.drivers.cisco_default"),
   ("juniper_junos", "network_importer.drivers.juniper_junos"),
   ("arista_eos", "network_importer.drivers.arista_eos")]

/-- `DriversSettings` (config.py lines 108-111). -/
structure DriversSettings where
  mapping : List (String × String) := DEFAULT_DRIVERS_MAPPING
deriving DecidableEq, Repr

/-- `InventorySettings` (config.py lines 114-124). -/
structure InventorySettings where
  inventory_class : Option String := none
  settings : Option (List (String × String)) := none
  supported_platforms : List String := []
deriving DecidableEq, Repr

/-- `Settings` (config.py lines 127-140): the aggregate settings record,
each section defaulting to its own all-defaults value. -/
structure Settings where
  main : MainSettings := {}
  batfish : BatfishSettings := {}
  logs : LogsSettings := {}
  network : NetworkSettings := {}
  adapters : AdaptersSettings := {}
  drivers : DriversSettings := {}
  inventory : InventorySettings := {}
deriving DecidableEq, Repr

/-- `DEFAULT_BACKENDS` (config.py lines 27-36): backend name ↦
(inventory class, adapter class). -/
def DEFAULT_BACKENDS : List (String × String × String) :=
  [("netbox", "NetBoxAPIInventory",
    "network_importer.adapters.netbox_api.adapter.NetBoxAPIAdapter"),
   ("nautobot", "NautobotAPIInventory",
    "network_importer.adapters.nautobot_api.adapter.NautobotAPIAdapter")]

/-- Python truthiness of an `Optional[str]`: `None` and `""` are falsy. -/
def optTruthy : Option String → Bool
  | none => false
  | some s => s != ""

/-- Error kinds of `config.py`: both code paths raise `ConfigLoadFatalError`;
the two distinct messages are the spec's `IncompleteBackendConfig` and
`UnknownBackend` kinds. -/
inductive ConfigErr where
  | incompleteBackendConfig
  | unknownBackend
deriving DecidableEq, Repr

/-- `_configure_backend` (config.py lines 143-174), with in-place mutation of
the settings object turned into functional record update. -/
def configure_backend (settings : Settings) : Except ConfigErr Settings :=
  if ¬ optTruthy settings.main.backend ∧
      (¬ optTruthy settings.inventory.inventory_class ∨
       ¬ optTruthy settings.adapters.sot_class) then
    .error .incompleteBackendConfig
  else if ¬ optTruthy settings.main.backend then
    .ok settings
  else
    match DEFAULT_BACKENDS.lookup (settings.main.backend.getD "") with
    | none => .error .unknownBackend
    | some (inv, adpt) =>
      let settings₁ :=
        if ¬ optTruthy settings.inventory.inventory_class then
          { settings with inventory := { settings.inventory with inventory_class := some inv } }
        else settings
      let settings₂ :=
        if ¬ optTruthy settings₁.adapters.sot_class then
          { settings₁ with adapters := { settings₁.adapters with sot_class := some adpt } }
        else settings₁
      .ok settings₂

/-- `load` (config.py lines 177-199). Effects are made explicit:
`config_data` is the optional already-validated settings dict argument
(Python truthiness: an empty/absent dict falls through), `file_config`
is `Some` of the parsed TOML settings when `os.path.exists(config_file_name)`
holds and `none` when the file does not exist. The returned value is what the
function stores in the `SETTINGS` global. -/
def load (config_data : Option Settings) (file_config : Option Settings) :
    Except ConfigErr Settings :=
  match config_data with
  | some data => configure_backend data
  | none =>
    match file_config with
    | some parsed => configure_backend parsed
    | none => .ok {}

/-! ## Order facts about the embedded string comparison -/

/-- A settings object with an explicitly configured backend name, inventory
class and SOT adapter class, as a user overriding both defaults would write. -/
def customSettings : Settings :=
  { main := { backend := some "netbox" },
    inventory := { inventory_class := some "CustomInventory" },
    adapters := { sot_class := some "CustomAdapter" } }

instance : IsTotal String pyLE := by
  constructor
  have H : ∀ as bs : List Char, charsLe as bs = true ∨ charsLe bs as = true := by
    intro as
    induction as with
    | nil => intro bs; left; rfl
    | cons x xs ih =>
      intro bs
      cases bs with
      | nil => right; rfl
      | cons y ys =>
        rcases lt_trichotomy x y with h | h | h
        · left; simp [charsLe, h]
        · subst h
          rcases ih ys with h | h
          · left; simp [charsLe, h, lt_irrefl]
          · right; simp [charsLe, h, lt_irrefl]
        · right; simp [charsLe, h]
  exact fun a b => H a.data b.data

instance : IsTrans String pyLE := by
  constructor
  have H : ∀ as bs cs : List Char,
      charsLe as bs = true → charsLe bs cs = true → charsLe as cs = true := by
    intro as
    induction as with
    | nil => intro bs cs _ _; rfl
    | cons x xs ih =>
      intro bs cs hab hbc
      cases bs with
      | nil => simp [charsLe] at hab
      | cons y ys =>
        cases cs with
        | nil => simp [charsLe] at hbc
        | cons z zs =>
          simp only [charsLe] at hab hbc ⊢
          rcases lt_trichotomy x y with h1 | h1 | h1
          · rcases lt_trichotomy y z with h2 | h2 | h2
            · simp [lt_trans h1 h2]
            · subst h2; simp [h1]
            · simp [h2, not_lt_of_lt h2] at hbc
          · subst h1
            rcases lt_trichotomy x z with h2 | h2 | h2
            · simp [h2]
            · subst h2
              simp [lt_irrefl] at hab hbc ⊢
              exact ih ys zs hab hbc
            · simp [h2, not_lt_of_lt h2] at hbc
          · simp [h1, not_lt_of_lt h1] at hab
  exact fun a b c => H a.data b.data c.data

instance : IsAntisymm String pyLE := by
  constructor
  have H : ∀ as bs : List Char,
      charsLe as bs = true → charsLe bs as = true → as = bs := by
    intro as
    induction as with
    | nil =>
      intro bs _ hba
      cases bs with
      | nil => rfl
      | cons y ys => simp [charsLe] at hba
    | cons x xs ih =>
      intro bs hab hba
      cases bs with
      | nil => simp [charsLe] at hab
      | cons y ys =>
        simp only [charsLe] at hab hba
        rcases lt_trichotomy x y with h1 | h1 | h1
        · simp [h1, not_lt_of_lt h1] at hba
        · subst h1
          simp [lt_irrefl] at hab hba
          rw [ih ys hab hba]
        · simp [h1, not_lt_of_lt h1] at hab
  intro a b hab hba
  have h := H a.data b.data hab hba
  cases a; cases b; exact congrArg String.mk h

theorem pyLE_refl (a : String) : pyLE a a :=
  (IsTotal.total (r := pyLE) a a).elim id id

theorem pyLE_of_not_pyLE {a b : String} (h : ¬ pyLE a b) : pyLE b a :=
  (IsTotal.total (r := pyLE) a b).resolve_left h

/-- `sorted` on a two-element Python list, explicitly. -/
theorem pySorted_pair (a b : String) :
    pySorted [a, b] = if pyLE a b then [a, b] else [b, a] := by
  simp only [pySorted, List.insertionSort, List.orderedInsert]

/-- The swap condition of `Cable.__init__`: `sorted(devices) != devices`
holds exactly when the z-side device name is strictly below the a-side one. -/
theorem pySorted_pair_ne_iff (a b : String) :
    pySorted [a, b] ≠ [a, b] ↔ ¬ pyLE a b := by
  rw [pySorted_pair]
  constructor
  · intro h hle
    simp [hle] at h
  · intro h
    rw [if_neg h]
    intro heq
    simp only [List.cons.injEq, and_true] at heq
    rcases heq with ⟨hba, _⟩
    subst hba
    exact h (pyLE_refl _)

/-! ## Behaviour of `Vlan.add_device` on the membership list -/

theorem Vlan.add_device_data (v : Vlan) (d : String) :
    (v.add_device d).associated_devices = listAdd v.associated_devices d := by
  by_cases h : d ∈ v.associated_devices <;> simp [Vlan.add_device, listAdd, h]

theorem Vlan.add_devices_data (v : Vlan) (ns : List String) :
    (v.add_devices ns).associated_devices = ns.foldl listAdd v.associated_devices := by
  induction ns generalizing v with
  | nil => rfl
  | cons n ns ih =>
    show ((v.add_device n).add_devices ns).associated_devices = _
    rw [ih, Vlan.add_device_data, List.foldl_cons]

theorem mem_listAdd {l : List String} {d x : String} :
    x ∈ listAdd l d ↔ x ∈ l ∨ x = d := by
  unfold listAdd
  split_ifs with h
  · constructor
    · exact .inl
    · rintro (hx | rfl)
      · exact hx
      · exact h
  · rw [pySorted, (List.perm_insertionSort pyLE (l ++ [d])).mem_iff]
    simp

theorem sorted_listAdd {l : List String} (d : String) (h : l.Sorted pyLE) :
    (listAdd l d).Sorted pyLE := by
  unfold listAdd
  split_ifs with hd
  · exact h
  · exact List.sorted_insertionSort pyLE _

theorem nodup_listAdd {l : List String} (d : String) (h : l.Nodup) :
    (listAdd l d).Nodup := by
  unfold listAdd
  split_ifs with hd
  · exact h
  · have happ : (l ++ [d]).Nodup := by simp [List.nodup_append, h, hd]
    exact ((List.perm_insertionSort pyLE (l ++ [d])).nodup_iff).mpr happ

theorem foldl_listAdd_props : ∀ (ns l : List String),
    l.Sorted pyLE → l.Nodup →
    (ns.foldl listAdd l).Sorted pyLE ∧ (ns.foldl listAdd l).Nodup ∧
      (∀ x, x ∈ ns.foldl listAdd l ↔ x ∈ l ∨ x ∈ ns)
  | [], l, hs, hn => ⟨hs, hn, by simp⟩
  | n :: ns, l, hs, hn => by
    obtain ⟨ha, hb, hc⟩ :=
      foldl_listAdd_props ns (listAdd l n) (sorted_listAdd n hs) (nodup_listAdd n hn)
    refine ⟨ha, hb, fun x => ?_⟩
    rw [List.foldl_cons, hc x, mem_listAdd, List.mem_cons]
    tauto

/-- Folding `add_device` over any sequence, starting from the empty membership
list, produces exactly the sorted deduplication of the sequence. -/
theorem foldl_listAdd_eq_sorted_dedup (ns : List String) :
    ns.foldl listAdd [] = pySorted ns.dedup := by
  obtain ⟨hs, hn, hm⟩ := foldl_listAdd_props ns [] List.sorted_nil List.nodup_nil
  have hs' : (pySorted ns.dedup).Sorted pyLE := List.sorted_insertionSort pyLE _
  have hn' : (pySorted ns.dedup).Nodup :=
    ((List.perm_insertionSort pyLE ns.dedup).nodup_iff).mpr (List.nodup_dedup ns)
  have hperm : List.Perm (ns.foldl listAdd []) (pySorted ns.dedup) := by
    rw [List.perm_ext_iff_of_nodup hn hn']
    intro x
    rw [hm x, pySorted, (List.perm_insertionSort pyLE ns.dedup).mem_iff]
    simp
  exact List.eq_of_perm_of_sorted hperm hs hs'

/-! ## Shape of a successful `Cable` construction -/

/-- For non-empty device names and present interface names, `Cable.__init__`
either keeps or swaps the two endpoint tuples according to `pyLE` on the
device names. -/
theorem Cable.init_eq (da ia dz iz : String) (hda : da ≠ "") (hdz : dz ≠ "") :
    Cable.init (some da) (some ia) (some dz) (some iz) =
      if pyLE da dz then
        .ok { device_a_name := da, interface_a_name := ia,
              device_z_name := dz, interface_z_name := iz }
      else
        .ok { device_a_name := dz, interface_a_name := iz,
              device_z_name := da, interface_z_name := ia } := by
  have hempty : ¬ (da = "" ∨ dz = "") := by tauto
  by_cases hle : pyLE da dz
  · have hcond : ¬ (pySorted [da, dz] ≠ [da, dz]) :=
      fun hc => (pySorted_pair_ne_iff da dz).mp hc hle
    simp [Cable.init, hempty, hcond, hle]
  · have hcond : pySorted [da, dz] ≠ [da, dz] := (pySorted_pair_ne_iff da dz).mpr hle
    simp [Cable.init, hempty, hcond, hle]

end NetworkImporter

namespace Claims

open NetworkImporter

/-- C1 counterexample: when the two device names are equal (a self-loop cable
between two interfaces of one device), swapping the endpoint tuples yields a
different identity tuple — `sorted(devices) == devices` holds, so no swap
occurs and the interface names stay on the side the caller gave them. -/
theorem cable_swap_equal_devices_counterexample :
    (Cable.init (some "sw1") (some "eth0") (some "sw1") (some "eth1")).map Cable.identity =
      .ok ("sw1", "eth0", "sw1", "eth1") ∧
    (Cable.init (some "sw1") (some "eth1") (some "sw1") (some "eth0")).map Cable.identity =
      .ok ("sw1", "eth1", "sw1", "eth0") ∧
    (("sw1", "eth0", "sw1", "eth1") : String × String × String × String) ≠
      ("sw1", "eth1", "sw1", "eth0") :=
  ⟨rfl, rfl, by decide⟩

/-- C1 (amended): for every valid 4-tuple of non-empty device names with the
two device names **distinct**, constructing a `Cable` with the endpoint tuples
swapped yields the same identity tuple as the unswapped construction. -/
theorem cable_swap_identity_distinct_devices (da ia dz iz : String)
    (hda : da ≠ "") (hdz : dz ≠ "") (hne : da ≠ dz) :
    (Cable.init (some da) (some ia) (some dz) (some iz)).map Cable.identity =
    (Cable.init (some dz) (some iz) (some da) (some ia)).map Cable.identity := by
  rw [Cable.init_eq da ia dz iz hda hdz, Cable.init_eq dz iz da ia hdz hda]
  by_cases hle : pyLE da dz
  · have hnle : ¬ pyLE dz da := fun h => hne (IsAntisymm.antisymm da dz hle h)
    rw [if_pos hle, if_neg hnle]
  · have hba : pyLE dz da := pyLE_of_not_pyLE hle
    rw [if_neg hle, if_pos hba]

/-- Witness for C1 at a concrete input. -/
theorem cable_swap_identity_distinct_devices_witness :
    (Cable.init (some "sw2") (some "eth0") (some "sw1") (some "eth1")).map Cable.identity =
    (Cable.init (some "sw1") (some "eth1") (some "sw2") (some "eth0")).map Cable.identity :=
  cable_swap_identity_distinct_devices "sw2" "eth0" "sw1" "eth1"
    (by decide) (by decide) (by decide)

/-- C2 counterexample: a cable between two interfaces of the same device is
stored exactly as given — the constructor compares only device names, so with
equal devices and `interface_a_name > interface_z_name` no interface tie-break
swap happens. -/
theorem cable_interface_tiebreak_counterexample :
    Cable.init (some "sw1") (some "eth1") (some "sw1") (some "eth0") =
      .ok { device_a_name := "sw1", interface_a_name := "eth1",
            device_z_name := "sw1", interface_z_name := "eth0" } ∧
    ¬ pyLE "eth1" "eth0" :=
  ⟨rfl, by decide⟩

/-- C2 (amended): after any successful construction,
`device_a_name ≤ device_z_name` holds; when the device names are equal the
interface names are kept in caller order (no tie-break on interface names). -/
theorem cable_device_names_ordered (oda oia odz oiz : Option String) (c : Cable)
    (h : Cable.init oda oia odz oiz = .ok c) :
    pyLE c.device_a_name c.device_z_name := by
  rcases oda with _ | da
  · exact absurd h (by simp [Cable.init])
  rcases odz with _ | dz
  · exact absurd h (by simp [Cable.init])
  by_cases he : da = "" ∨ dz = ""
  · rcases oia with _ | ia <;> rcases oiz with _ | iz <;> simp [Cable.init, he] at h
  rcases oia with _ | ia
  · simp [Cable.init, he] at h
  rcases oiz with _ | iz
  · simp [Cable.init, he] at h
  rw [Cable.init_eq da ia dz iz (by tauto) (by tauto)] at h
  by_cases hle : pyLE da dz
  · rw [if_pos hle] at h
    cases Except.ok.inj h
    exact hle
  · rw [if_neg hle] at h
    cases Except.ok.inj h
    exact pyLE_of_not_pyLE hle

/-- Witness for C2 at a concrete input. -/
theorem cable_device_names_ordered_witness :
    pyLE ({ device_a_name := "sw1", interface_a_name := "eth1",
            device_z_name := "sw2", interface_z_name := "eth0" } : Cable).device_a_name
         ({ device_a_name := "sw1", interface_a_name := "eth1",
            device_z_name := "sw2", interface_z_name := "eth0" } : Cable).device_z_name :=
  cable_device_names_ordered (some "sw2") (some "eth0") (some "sw1") (some "eth1") _ rfl

/-- C3: a missing (or empty/`None`) `device_a_name` or `device_z_name` makes
`Cable.__init__` raise the identity `ValueError` (`invalidIdentity`);
the construction returns an error, so no entity exists and the
canonicalization (swap) code, which comes after these checks, is never
reached. -/
theorem cable_missing_or_empty_device_invalid_identity
    (oda oia odz oiz : Option String)
    (h : oda = none ∨ odz = none ∨ oda = some "" ∨ odz = some "") :
    Cable.init oda oia odz oiz = .error .invalidIdentity := by
  rcases oda with _ | da
  · cases odz <;> rfl
  rcases odz with _ | dz
  · rfl
  have he : da = "" ∨ dz = "" := by
    rcases h with h | h | h | h <;> simp_all
  simp [Cable.init, he]

/-- Witness for C3 at concrete inputs. -/
theorem cable_missing_or_empty_device_invalid_identity_witness :
    Cable.init none (some "eth0") (some "sw1") (some "eth1") =
      .error .invalidIdentity ∧
    Cable.init (some "") (some "eth0") (some "sw1") (some "eth1") =
      .error .invalidIdentity :=
  ⟨cable_missing_or_empty_device_invalid_identity none (some "eth0") (some "sw1")
      (some "eth1") (.inl rfl),
   cable_missing_or_empty_device_invalid_identity (some "") (some "eth0") (some "sw1")
      (some "eth1") (.inr (.inr (.inl rfl)))⟩

/-- C4 counterexample: `Site` performs no emptiness validation — an empty
`name`, the whole of `Site`'s identity tuple, is accepted and the entity is
constructed. -/
theorem empty_identity_accepted_counterexample :
    Site.init (some "") = .ok { name := "", prefixes := [], vlans := [] } := rfl

/-- C4 (amended): a *missing* required identity field fails construction
(pydantic validation), but an *empty* identity value is rejected only by
`Cable` and only for its two device names: every other entity type accepts
empty-string identity components, `Cable` accepts empty interface names, and
`Prefix` even accepts a wholly absent `site_name` identity component. -/
theorem identity_validation_as_implemented :
    Site.init none = .error .validationError ∧
    Device.init none = .error .validationError ∧
    Interface.init none (some "dev1") = .error .validationError ∧
    Interface.init (some "eth0") none = .error .validationError ∧
    IPAddress.init none (some "eth0") (some "10.0.0.1/32") = .error .validationError ∧
    PrefixModel.init (some "site1") none = .error .validationError ∧
    Vlan.init none (some "site1") = .error .validationError ∧
    Vlan.init (some 10) none = .error .validationError ∧
    Site.init (some "") = .ok { name := "" } ∧
    Device.init (some "") = .ok { name := "" } ∧
    Interface.init (some "") (some "") = .ok { name := "", device_name := "" } ∧
    IPAddress.init (some "") (some "") (some "") =
      .ok { device_name := "", interface_name := "", address := "" } ∧
    Vlan.init (some 10) (some "") = .ok { vid := 10, site_name := "" } ∧
    PrefixModel.init none (some "10.0.0.0/8") =
      .ok { prefix_value := "10.0.0.0/8", site_name := none } ∧
    Cable.init (some "sw1") (some "") (some "sw2") (some "") =
      .ok { device_a_name := "sw1", interface_a_name := "",
            device_z_name := "sw2", interface_z_name := "" } :=
  ⟨rfl, rfl, rfl, rfl, rfl, rfl, rfl, rfl, rfl, rfl, rfl, rfl, rfl, rfl, rfl⟩

/-- C5: `Vlan.add_device` is idempotent, and populating an initially empty
membership list with any sequence of device names yields the ascending sorted
list of the distinct names; permuting the call order does not change the
result. -/
theorem vlan_add_device_idempotent_sorted :
    (∀ (v : Vlan) (d : String), (v.add_device d).add_device d = v.add_device d) ∧
    (∀ (v : Vlan) (ns : List String), v.associated_devices = [] →
      (v.add_devices ns).associated_devices = pySorted ns.dedup) ∧
    (∀ (v : Vlan) (ns₁ ns₂ : List String), v.associated_devices = [] →
      List.Perm ns₁ ns₂ →
      (v.add_devices ns₁).associated_devices = (v.add_devices ns₂).associated_devices) := by
  have hmain : ∀ (v : Vlan) (ns : List String), v.associated_devices = [] →
      (v.add_devices ns).associated_devices = pySorted ns.dedup := by
    intro v ns hv
    rw [Vlan.add_devices_data, hv, foldl_listAdd_eq_sorted_dedup]
  refine ⟨?_, hmain, ?_⟩
  · intro v d
    have hd : d ∈ (v.add_device d).associated_devices := by
      rw [Vlan.add_device_data]
      exact mem_listAdd.mpr (.inr rfl)
    show (if d ∈ (v.add_device d).associated_devices then v.add_device d else _) =
      v.add_device d
    rw [if_pos hd]
  · intro v ns₁ ns₂ hv hperm
    rw [hmain v ns₁ hv, hmain v ns₂ hv]
    have h₁ : List.Perm (pySorted ns₁.dedup) (pySorted ns₂.dedup) :=
      ((List.perm_insertionSort pyLE ns₁.dedup).trans hperm.dedup).trans
        (List.perm_insertionSort pyLE ns₂.dedup).symm
    exact List.eq_of_perm_of_sorted h₁
      (List.sorted_insertionSort pyLE _) (List.sorted_insertionSort pyLE _)

/-- Witness for C5 at a concrete input. -/
theorem vlan_add_device_idempotent_sorted_witness :
    (({ vid := 10, site_name := "site1" } : Vlan).add_devices
        ["dev2", "dev1"]).associated_devices =
      pySorted (["dev2", "dev1"] : List String).dedup :=
  vlan_add_device_idempotent_sorted.2.1 { vid := 10, site_name := "site1" }
    ["dev2", "dev1"] rfl

/-- C6: backend resolution (1) fails with `IncompleteBackendConfig` when no
backend name is set and an inventory or adapter class is missing, (2) fails
with `UnknownBackend` for a backend name outside {netbox, nautobot}, and
(3) with backend "nautobot" and no explicit classes fills in both nautobot
defaults and succeeds. -/
theorem backend_resolution_errors_and_defaults :
    (∀ s : Settings, ¬ optTruthy s.main.backend →
      (¬ optTruthy s.inventory.inventory_class ∨ ¬ optTruthy s.adapters.sot_class) →
      configure_backend s = .error .incompleteBackendConfig) ∧
    (∀ (s : Settings) (b : String), s.main.backend = some b → b ≠ "" →
      b ≠ "netbox" → b ≠ "nautobot" →
      configure_backend s = .error .unknownBackend) ∧
    (∀ s : Settings, s.main.backend = some "nautobot" →
      s.inventory.inventory_class = none → s.adapters.sot_class = none →
      configure_backend s =
        .ok { s with
              inventory := { s.inventory with
                inventory_class := some "NautobotAPIInventory" },
              adapters := { s.adapters with
                sot_class := some
                  "network_importer.adapters.nautobot_api.adapter.NautobotAPIAdapter" } }) := by
  refine ⟨?_, ?_, ?_⟩
  · intro s hb hor
    unfold configure_backend
    rw [if_pos ⟨hb, hor⟩]
  · intro s b hsb hb hnb hnn
    have ht : optTruthy s.main.backend = true := by
      rw [hsb]; simp [optTruthy, hb]
    have h1 : (b == "netbox") = false := beq_eq_false_iff_ne.mpr hnb
    have h2 : (b == "nautobot") = false := beq_eq_false_iff_ne.mpr hnn
    have hlook : DEFAULT_BACKENDS.lookup (s.main.backend.getD "") = none := by
      rw [hsb]
      simp [DEFAULT_BACKENDS, List.lookup, h1, h2]
    simp [configure_backend, ht, hlook]
  · intro s hsb hinv hsot
    simp [configure_backend, hsb, hinv, hsot, optTruthy, DEFAULT_BACKENDS, List.lookup]

/-- Witness for C6 at concrete settings objects. -/
theorem backend_resolution_errors_and_defaults_witness :
    configure_backend {} = .error .incompleteBackendConfig ∧
    configure_backend { main := { backend := some "infoblox" } } =
      .error .unknownBackend ∧
    configure_backend { main := { backend := some "nautobot" } } =
      .ok { main := { backend := some "nautobot" },
            inventory := { inventory_class := some "NautobotAPIInventory" },
            adapters := { sot_class := some "network_importer.adapters.nautobot_api.adapter.NautobotAPIAdapter" } } :=
  ⟨backend_resolution_errors_and_defaults.1 {} (by decide) (.inl (by decide)),
   backend_resolution_errors_and_defaults.2.1 { main := { backend := some "infoblox" } }
     "infoblox" rfl (by decide) (by decide) (by decide),
   backend_resolution_errors_and_defaults.2.2 { main := { backend := some "nautobot" } }
     rfl rfl rfl⟩

/-- C7: with a valid backend name, resolution succeeds, never overwrites an
already-set (truthy) inventory or adapter class, fills exactly the unset ones
with the backend defaults, and leaves every other settings section unchanged. -/
theorem backend_resolution_frame (s : Settings) (b : String) (inv adpt : String)
    (hsb : s.main.backend = some b)
    (hlook : DEFAULT_BACKENDS.lookup b = some (inv, adpt)) :
    ∃ s' : Settings, configure_backend s = .ok s' ∧
      s'.main = s.main ∧ s'.batfish = s.batfish ∧ s'.logs = s.logs ∧
      s'.network = s.network ∧ s'.drivers = s.drivers ∧
      (optTruthy s.inventory.inventory_class → s'.inventory = s.inventory) ∧
      (optTruthy s.adapters.sot_class → s'.adapters = s.adapters) ∧
      (¬ optTruthy s.inventory.inventory_class →
        s'.inventory = { s.inventory with inventory_class := some inv }) ∧
      (¬ optTruthy s.adapters.sot_class →
        s'.adapters = { s.adapters with sot_class := some adpt }) := by
  have hbne : b ≠ "" := by
    intro h
    subst h
    simp [DEFAULT_BACKENDS, List.lookup] at hlook
  have ht : optTruthy s.main.backend = true := by
    rw [hsb]; simp [optTruthy, hbne]
  have hlook' : DEFAULT_BACKENDS.lookup (s.main.backend.getD "") = some (inv, adpt) := by
    rw [hsb]; exact hlook
  by_cases hi : optTruthy s.inventory.inventory_class <;>
    by_cases ha : optTruthy s.adapters.sot_class
  · exact ⟨s, by simp [configure_backend, ht, hlook', hi, ha], rfl, rfl, rfl, rfl, rfl,
      fun _ => rfl, fun _ => rfl, fun h => absurd hi h, fun h => absurd ha h⟩
  · exact ⟨{ s with adapters := { s.adapters with sot_class := some adpt } },
      by simp [configure_backend, ht, hlook', hi, ha], rfl, rfl, rfl, rfl, rfl,
      fun _ => rfl, fun h => absurd h ha, fun h => absurd hi h, fun _ => rfl⟩
  · exact ⟨{ s with inventory := { s.inventory with inventory_class := some inv } },
      by simp [configure_backend, ht, hlook', hi, ha], rfl, rfl, rfl, rfl, rfl,
      fun h => absurd h hi, fun _ => rfl, fun _ => rfl, fun h => absurd ha h⟩
  · exact ⟨{ s with inventory := { s.inventory with inventory_class := some inv }, adapters := { s.adapters with sot_class := some adpt } },
      by simp [configure_backend, ht, hlook', hi, ha], rfl, rfl, rfl, rfl, rfl,
      fun h => absurd h hi, fun h => absurd h ha, fun _ => rfl, fun _ => rfl⟩

/-- Witness for C7: a settings object with both classes explicitly set keeps
them through resolution. -/
theorem backend_resolution_frame_witness :
    ∃ s' : Settings, configure_backend customSettings = .ok s' ∧
      s'.main = customSettings.main ∧
      s'.batfish = customSettings.batfish ∧
      s'.logs = customSettings.logs ∧
      s'.network = customSettings.network ∧
      s'.drivers = customSettings.drivers ∧
      (optTruthy customSettings.inventory.inventory_class →
        s'.inventory = customSettings.inventory) ∧
      (optTruthy customSettings.adapters.sot_class →
        s'.adapters = customSettings.adapters) ∧
      (¬ optTruthy customSettings.inventory.inventory_class →
        s'.inventory = { customSettings.inventory with inventory_class := some "NetBoxAPIInventory" }) ∧
      (¬ optTruthy customSettings.adapters.sot_class →
        s'.adapters = { customSettings.adapters with sot_class := some "network_importer.adapters.netbox_api.adapter.NetBoxAPIAdapter" }) :=
  backend_resolution_frame customSettings "netbox" "NetBoxAPIInventory"
    "network_importer.adapters.netbox_api.adapter.NetBoxAPIAdapter" rfl rfl

/-- C8 counterexample: the diff attribute tuple declared on `Device` is not
the five-field tuple the claim states. -/
theorem device_attributes_counterexample :
    Device.attributes ≠ ["site_name", "platform", "model", "role", "vendor"] := by
  decide

/-- C8 (amended): the attribute fields the diff engine compares for `Device`
are exactly `site_name`; `platform`, `model`, `role` and `vendor` exist on the
model but are not declared diff attributes; identity is the name alone and the
children are the interfaces. -/
theorem device_diff_fields :
    Device.attributes = ["site_name"] ∧
    Device.identifiers = ["name"] ∧
    Device.children = [("interface", "interfaces")] ∧
    "platform" ∉ Device.attributes ∧ "model" ∉ Device.attributes ∧
    "role" ∉ Device.attributes ∧ "vendor" ∉ Device.attributes := by
  decide

/-- C9 counterexample: `get_device_intf` lowercases the side first, so the
side value `"A"`, which is neither `"a"` nor `"z"`, does **not** fail — it
returns the a-side pair. -/
theorem get_device_intf_uppercase_counterexample :
    ({ device_a_name := "sw1", interface_a_name := "eth0",
       device_z_name := "sw2", interface_z_name := "eth1" } : Cable).get_device_intf
        "A" = .ok ("sw1", "eth0") ∧
    ("A" : String) ≠ "a" ∧ ("A" : String) ≠ "z" :=
  ⟨rfl, by decide, by decide⟩

/-- C9 (amended): `get_device_intf` returns the stored a-side pair for any
side whose lowercasing is `"a"`, the stored z-side pair for lowercasing
`"z"`, and fails with `InvalidSide` exactly when the lowercased side is
neither. -/
theorem get_device_intf_sides :
    (∀ c : Cable, c.get_device_intf "a" = .ok (c.device_a_name, c.interface_a_name)) ∧
    (∀ c : Cable, c.get_device_intf "z" = .ok (c.device_z_name, c.interface_z_name)) ∧
    (∀ (c : Cable) (side : String), pyLower side ≠ "a" → pyLower side ≠ "z" →
      c.get_device_intf side = .error .invalidSide) := by
  refine ⟨fun c => rfl, fun c => rfl, fun c side h1 h2 => ?_⟩
  simp [Cable.get_device_intf, h1, h2]

/-- Witness for C9 at a concrete cable and side. -/
theorem get_device_intf_sides_witness :
    ({ device_a_name := "sw1", interface_a_name := "eth0",
       device_z_name := "sw2", interface_z_name := "eth1" } : Cable).get_device_intf
        "x" = .error .invalidSide :=
  get_device_intf_sides.2.2
    { device_a_name := "sw1", interface_a_name := "eth0",
      device_z_name := "sw2", interface_z_name := "eth1" }
    "x" (by decide) (by decide)

/-- C10: `load` with no config data and a non-existent configuration file
stores the all-defaults `Settings` and raises nothing — even though running
backend resolution on those defaults would fail with
`IncompleteBackendConfig`, resolution is not invoked on this path; the
defaults have no backend, no inventory class and no SOT adapter class. -/
theorem load_defaults_without_backend_resolution :
    load none none = .ok {} ∧
    ({} : Settings).main.backend = none ∧
    ({} : Settings).inventory.inventory_class = none ∧
    ({} : Settings).adapters.sot_class = none ∧
    configure_backend {} = .error .incompleteBackendConfig :=
  ⟨rfl, rfl, rfl, rfl, rfl⟩

end Claims
